import Mathlib

/-!
Verification development for the chief-of-staff-dashboard repository.

The core under audit is the Meeting Alignment Scoring Engine
(src/backend/services/calendar_audit.py, duplicated in
src/api/calendar-audit.py and src/api/daily-briefing.py) and the
communication Style Checker (src/backend/services/style_checker.py,
duplicated in src/api/check-style.py).  All definitions below are shallow
embeddings translated from those Python sources; per-meeting and per-text
computations are pure, so they embed directly as Lean functions.

Conventions of the embedding:
* Python `str` values are Lean `String`s; all inputs of interest are ASCII,
  so `str.lower` is `Char.toLower` mapped over the string and `\w`, `\s`
  follow their ASCII meaning.
* Python `in` (substring containment) is `containsSub` over character lists.
* The regex patterns of the style checker are fixed and few; each one is
  embedded as a dedicated scanner whose semantics at the relevant inputs
  match `re.search` / `re.findall` (leftmost, non-overlapping).
* `int(x)` on the nonnegative weighted score is embedded as exact rational
  floor, i.e. `(30*t + 35*o + 20*a + 15*ti) / 100` in `Nat`.  The four
  sub-scores range over the finite sets {table values, 15, 20, 25, 70, 40},
  {30, 85, 100}, {25, 60, 90} and {30, 50, 75, 100}; over all 504
  combinations the IEEE-double expression
  `int(t*0.30 + o*0.35 + a*0.20 + ti*0.15)` agrees with the exact floor,
  so the embedding is extensionally faithful.
* Python `list.sort(key=...)` is a stable sort; it is embedded as
  `List.insertionSort` with the non-strict key order, which computes the
  same (unique) stable sorting.
-/

/-! ### Python string primitives -/

/-- Python whitespace for `str.strip` / `\s` (ASCII fragment). -/
def isPySpace (c : Char) : Bool :=
  c == ' ' || c == '\t' || c == '\n' || c == '\r' || c == '\x0b' || c == '\x0c'

/-- Python word character `\w` (ASCII fragment). -/
def isWordChar (c : Char) : Bool :=
  c.isAlphanum || c == '_'

/-- ASCII lower-casing of one character (agrees with `Char.toLower` on the
ASCII range but avoids `UInt32`/`Char.ofNat` plumbing). -/
def toLowerA (c : Char) : Char :=
  if c == 'A' then 'a' else if c == 'B' then 'b' else if c == 'C' then 'c'
  else if c == 'D' then 'd' else if c == 'E' then 'e' else if c == 'F' then 'f'
  else if c == 'G' then 'g' else if c == 'H' then 'h' else if c == 'I' then 'i'
  else if c == 'J' then 'j' else if c == 'K' then 'k' else if c == 'L' then 'l'
  else if c == 'M' then 'm' else if c == 'N' then 'n' else if c == 'O' then 'o'
  else if c == 'P' then 'p' else if c == 'Q' then 'q' else if c == 'R' then 'r'
  else if c == 'S' then 's' else if c == 'T' then 't' else if c == 'U' then 'u'
  else if c == 'V' then 'v' else if c == 'W' then 'w' else if c == 'X' then 'x'
  else if c == 'Y' then 'y' else if c == 'Z' then 'z' else c

/-- `str.lower` (ASCII fragment). -/
def pyLower (s : String) : String :=
  String.mk (s.toList.map toLowerA)

/-- `str.strip()` with default (whitespace) separators. -/
def pyStrip (s : String) : String :=
  String.mk (((s.toList.dropWhile isPySpace).reverse.dropWhile isPySpace).reverse)

/-- Does `hay` start with `needle` (character lists)? -/
def startsWithL : List Char → List Char → Bool
  | [], _ => true
  | _ :: _, [] => false
  | a :: as, b :: bs => a == b && startsWithL as bs

/-- Python `needle in hay` substring containment, on character lists. -/
def containsSub (needle : List Char) : List Char → Bool
  | [] => needle.isEmpty
  | c :: rest => startsWithL needle (c :: rest) || containsSub needle rest

/-- Python `needle in hay` on strings. -/
def pyIn (needle hay : String) : Bool :=
  containsSub needle.toList hay.toList

/-- Python `str.startswith` on strings. -/
def pyStartsWith (s pre : String) : Bool :=
  startsWithL pre.toList s.toList

/-- Number of maximal non-whitespace runs: `len(text.split())`. -/
def wordCountAux : Bool → List Char → Nat
  | _, [] => 0
  | inWord, c :: rest =>
    if isPySpace c then wordCountAux false rest
    else if inWord then wordCountAux true rest
    else 1 + wordCountAux true rest

/-- `len(text.split())` for Python default (whitespace) splitting. -/
def pyWordCount (s : String) : Nat :=
  wordCountAux false s.toList

/-- `text.split('\n')[0]`: the characters before the first newline. -/
def firstLineOf (s : String) : String :=
  String.mk (s.toList.takeWhile (fun c => c != '\n'))

/-! ### Meeting Record (spec §3; dict built by `parse_calendar_csv`) -/

/-- A normalized calendar entry, as produced by `parse_calendar_csv` in
src/backend/services/calendar_audit.py (and its duplicates).  Dates are kept
as strings compared for equality; times of day as minutes since midnight. -/
structure Meeting where
  id : Nat
  title : String
  date : String
  start_time : Nat
  end_time : Nat
  duration_minutes : Nat
  organizer : String
  attendees : List String
  meeting_type : String
  description : String
  recurring : Bool
deriving DecidableEq

namespace CalendarAudit

/-! Embedding of src/backend/services/calendar_audit.py.  The module-level
constant tables and the scoring logic are duplicated verbatim in
src/api/calendar-audit.py; the definitions in this namespace therefore also
embed that copy (whose `calculate_alignment_score` additionally returns
`okr_relevance`, see `AuditAPI.calculate_alignment_score`). -/

/-- `OKR_KEYWORDS["platform_modernization"]`. -/
def OKR_KEYWORDS_platform : List String :=
  ["kubernetes", "k8s", "migration", "deployment", "uptime",
   "infrastructure", "platform", "devops", "ci/cd", "architecture"]

/-- `OKR_KEYWORDS["engineering_team"]`. -/
def OKR_KEYWORDS_engineering : List String :=
  ["hire", "hiring", "interview", "staff engineer", "principal",
   "attrition", "mentorship", "mentor", "career", "growth", "1:1"]

/-- `OKR_KEYWORDS["ai_ml_integration"]`. -/
def OKR_KEYWORDS_ai : List String :=
  ["ai", "ml", "machine learning", "artificial intelligence",
   "data science", "model", "poc", "search"]

/-- `MEETING_TYPE_SCORES`: meeting types and their base strategic value. -/
def MEETING_TYPE_SCORES : List (String × Nat) :=
  [("architecture", 95), ("strategic_planning", 90), ("board_prep", 90),
   ("one_on_one", 85), ("hiring", 80), ("interview", 75), ("incident_review", 85),
   ("external", 70), ("design_review", 60), ("sprint_ceremony", 30),
   ("standup", 25), ("status_update", 20), ("vendor_demo", 40), ("adhoc", 35),
   ("prep", 50), ("strategic", 80)]

/-- `MEETING_TYPE_SCORES.get(meeting_type, 40)`: table lookup with the
default for unknown types. -/
def MEETING_TYPE_SCORES_get (mt : String) : Nat :=
  (MEETING_TYPE_SCORES.lookup mt).getD 40

/-- `JUNIOR_INDICATORS`. -/
def JUNIOR_INDICATORS : List String :=
  ["junior", "intern", "new hire", "onboarding", "coffee chat"]

/-- `SENIOR_INDICATORS`. -/
def SENIOR_INDICATORS : List String :=
  ["staff", "principal", "director", "vp", "cto", "ceo", "cfo", "board", "investor"]

/-- The lowercased search string of `find_okr_relevance`:
`f"{title} {description} {meeting_type}".lower()`. -/
def text_to_search (m : Meeting) : String :=
  pyLower (m.title ++ " " ++ m.description ++ " " ++ m.meeting_type)

/-- `find_okr_relevance`: appends each group label iff some keyword of the
group is a substring of the search string, in fixed group order. -/
def find_okr_relevance (m : Meeting) : List String :=
  (if OKR_KEYWORDS_platform.any (fun kw => pyIn kw (text_to_search m))
   then ["Platform Modernization"] else []) ++
  (if OKR_KEYWORDS_engineering.any (fun kw => pyIn kw (text_to_search m))
   then ["Build World-Class Engineering Team"] else []) ++
  (if OKR_KEYWORDS_ai.any (fun kw => pyIn kw (text_to_search m))
   then ["AI/ML Integration"] else [])

/-- `text_lower = f"{title} {description}".lower()`. -/
def text_lower (m : Meeting) : String :=
  pyLower (m.title ++ " " ++ m.description)

/-- `attendees_lower = " ".join(attendees).lower()`. -/
def attendees_lower (m : Meeting) : String :=
  pyLower (String.intercalate " " m.attendees)

/-- `is_junior_activity`. -/
def is_junior_activity (m : Meeting) : Bool :=
  JUNIOR_INDICATORS.any (fun ind => pyIn ind (text_lower m))

/-- `is_senior_activity`. -/
def is_senior_activity (m : Meeting) : Bool :=
  SENIOR_INDICATORS.any (fun ind => pyIn ind (text_lower m) || pyIn ind (attendees_lower m))

/-- Factor 2: OKR score. -/
def okr_score (m : Meeting) : Nat :=
  if find_okr_relevance m ≠ [] then min 100 (70 + (find_okr_relevance m).length * 15)
  else 30

/-- Factor 3: attendee/seniority score. -/
def attendee_score (m : Meeting) : Nat :=
  if is_junior_activity m && !is_senior_activity m then 25
  else if is_senior_activity m then 90
  else 60

/-- Factor 1 after the special-case overrides: the base table lookup,
sequentially overwritten by each special case that applies, in source order
(design review, interview, vendor demo, status update). -/
def type_score (m : Meeting) : Nat :=
  let ts0 := MEETING_TYPE_SCORES_get m.meeting_type
  let ts1 := if m.meeting_type == "design_review" && is_junior_activity m then 20 else ts0
  let ts2 := if m.meeting_type == "interview" && is_junior_activity m then 25 else ts1
  let ts3 :=
    if m.meeting_type == "vendor_demo" then
      (if pyIn "25k" (text_lower m) || pyIn "10k" (text_lower m) then 20
       else if pyIn "200k" (text_lower m) || pyIn "100k" (text_lower m) then 70
       else ts2)
    else ts2
  if m.meeting_type == "status_update" then 15 else ts3

/-- Factor 4: time-allocation category score. -/
def time_score (m : Meeting) : Nat :=
  if m.meeting_type ∈ ["architecture", "strategic_planning", "board_prep", "hiring"] then 100
  else if m.meeting_type ∈ ["one_on_one", "interview", "mentorship"] then 75
  else if m.meeting_type ∈ ["standup", "status_update", "prep", "adhoc"] then 30
  else 50

/-- The flag list, in source evaluation order: OKR flag, attendee flag, then
the special-case flags for design reviews, interviews, vendor demos, status
updates and sprint ceremonies. -/
def flags (m : Meeting) : List String :=
  (if find_okr_relevance m ≠ [] then []
   else ["No clear OKR alignment detected"]) ++
  (if is_junior_activity m && !is_senior_activity m then
     [s!"CTO attending junior-level activity: \x27{m.title}\x27"] else []) ++
  (if m.meeting_type == "design_review" && is_junior_activity m then
     ["Design review should be delegated to Engineering Manager"] else []) ++
  (if m.meeting_type == "interview" && is_junior_activity m then
     ["Interview for junior role - delegate to hiring manager"] else []) ++
  (if m.meeting_type == "vendor_demo" &&
      (pyIn "25k" (text_lower m) || pyIn "10k" (text_lower m)) then
     ["Vendor demo for tool under $50K threshold - delegate"] else []) ++
  (if m.meeting_type == "status_update" then
     ["Status updates should be asynchronous - consider declining"] else []) ++
  (if m.meeting_type == "sprint_ceremony" then
     ["Sprint ceremony - CTO attendance rarely necessary"] else [])

/-- The weighted final score
`int(type_score*0.30 + okr_score*0.35 + attendee_score*0.20 + time_score*0.15)`,
embedded as the exact floor (see the module header for IEEE faithfulness). -/
def final_score (m : Meeting) : Nat :=
  (30 * type_score m + 35 * okr_score m + 20 * attendee_score m + 15 * time_score m) / 100

/-- The recommendation thresholds applied to the final score
(lines 173-178 of calendar_audit.py). -/
def recommendation_of_score (s : Nat) : String :=
  if s ≥ 70 then "Keep"
  else if s ≥ 45 then "Delegate"
  else "Decline"

/-- `calculate_alignment_score` (backend copy): returns
`(score, flags, recommendation)`. -/
def calculate_alignment_score (m : Meeting) : Nat × List String × String :=
  (final_score m, flags m, recommendation_of_score (final_score m))

/-- `get_strategic_value_label`. -/
def get_strategic_value_label (score : Nat) : String :=
  if score ≥ 75 then "High"
  else if score ≥ 50 then "Medium"
  else "Low"

end CalendarAudit

namespace AuditAPI

/-- `calculate_alignment_score` as duplicated in src/api/calendar-audit.py:
identical scoring logic and constants (this copy keeps the 200k/100k
vendor-demo override), but the tuple additionally carries `okr_relevance`. -/
def calculate_alignment_score (m : Meeting) : Nat × List String × String × List String :=
  (CalendarAudit.final_score m, CalendarAudit.flags m,
   CalendarAudit.recommendation_of_score (CalendarAudit.final_score m),
   CalendarAudit.find_okr_relevance m)

end AuditAPI

namespace BriefingAPI

/-- `calculate_alignment_score` of src/api/daily-briefing.py drops the
`elif "200k" in text_lower or "100k" in text_lower: type_score = 70`
branch of the vendor-demo special case (lines 100-103); everything else is
the verbatim duplicate of the other copies.  This is its type score. -/
def type_score (m : Meeting) : Nat :=
  let ts0 := CalendarAudit.MEETING_TYPE_SCORES_get m.meeting_type
  let ts1 :=
    if m.meeting_type == "design_review" && CalendarAudit.is_junior_activity m then 20 else ts0
  let ts2 :=
    if m.meeting_type == "interview" && CalendarAudit.is_junior_activity m then 25 else ts1
  let ts3 :=
    if m.meeting_type == "vendor_demo" then
      (if pyIn "25k" (CalendarAudit.text_lower m) || pyIn "10k" (CalendarAudit.text_lower m)
       then 20
       else ts2)
    else ts2
  if m.meeting_type == "status_update" then 15 else ts3

/-- The weighted final score of the daily-briefing copy. -/
def final_score (m : Meeting) : Nat :=
  (30 * type_score m + 35 * CalendarAudit.okr_score m +
   20 * CalendarAudit.attendee_score m + 15 * CalendarAudit.time_score m) / 100

/-- `calculate_alignment_score` (daily-briefing copy): the flag list is
unchanged because the dropped branch appends no flag. -/
def calculate_alignment_score (m : Meeting) : Nat × List String × String × List String :=
  (final_score m, CalendarAudit.flags m,
   CalendarAudit.recommendation_of_score (final_score m),
   CalendarAudit.find_okr_relevance m)

end BriefingAPI

/-! ### Audit pipeline (audit_calendar, summary, daily briefing) -/

/-- One Audit Result: the dict built per meeting by `audit_calendar` (and by
the handler loops of the api copies). -/
structure AuditResult where
  entry : Meeting
  alignment_score : Nat
  strategic_value : String
  flags : List String
  recommendation : String
  okr_relevance : List String
deriving DecidableEq

namespace CalendarAudit

/-- The per-meeting result dict of the `audit_calendar` loop
(lines 201-213 of calendar_audit.py). -/
def audit_result (m : Meeting) : AuditResult :=
  { entry := m,
    alignment_score := final_score m,
    strategic_value := get_strategic_value_label (final_score m),
    flags := flags m,
    recommendation := recommendation_of_score (final_score m),
    okr_relevance := find_okr_relevance m }

/-- The sort key order of `results.sort(key=lambda x: x["alignment_score"])`. -/
def scoreLE (a b : AuditResult) : Prop :=
  a.alignment_score ≤ b.alignment_score

instance : DecidableRel scoreLE :=
  fun a b => inferInstanceAs (Decidable (a.alignment_score ≤ b.alignment_score))

instance : IsTotal AuditResult scoreLE :=
  ⟨fun a b => Nat.le_total a.alignment_score b.alignment_score⟩

instance : IsTrans AuditResult scoreLE :=
  ⟨fun _ _ _ => Nat.le_trans⟩

/-- `audit_calendar`: scores every meeting and sorts ascending by alignment
score.  Python `list.sort` is stable; `List.insertionSort` with the
non-strict key order computes the same stable sorting. -/
def audit_calendar (ms : List Meeting) : List AuditResult :=
  List.insertionSort scoreLE (ms.map audit_result)

/-- The aggregate summary block of the audit endpoints
(src/api/calendar-audit.py lines 167-177 and src/backend/main.py
lines 79-90).  `int(high_value / total * 100)` is embedded as `Nat` floor
division, with the guarded `0` for an empty collection as in the source. -/
structure AuditSummary where
  total_meetings : Nat
  high_strategic_value : Nat
  needs_attention : Nat
  health_score : Nat
deriving DecidableEq

/-- The summary computation over the audit results. -/
def audit_summary (results : List AuditResult) : AuditSummary :=
  let total := results.length
  let high_value := (results.filter (fun r => r.strategic_value == "High")).length
  let needs := (results.filter (fun r => r.recommendation != "Keep")).length
  { total_meetings := total,
    high_strategic_value := high_value,
    needs_attention := needs,
    health_score := if total > 0 then high_value * 100 / total else 0 }

/-- The sort order of the daily view: ascending by `start_time`. -/
def startLE (a b : AuditResult) : Prop :=
  a.entry.start_time ≤ b.entry.start_time

instance : DecidableRel startLE :=
  fun a b => inferInstanceAs (Decidable (a.entry.start_time ≤ b.entry.start_time))

end CalendarAudit

/-- Round-half-to-even of a rational to an integer (the rounding mode of
Python `round`). -/
def roundHalfEven (q : ℚ) : ℤ :=
  let f := ⌊q⌋
  if q - f < 1/2 then f
  else if (1 : ℚ)/2 < q - f then f + 1
  else if f % 2 = 0 then f else f + 1

/-- `round(x, 1)` over exact rationals. -/
def pyRound1 (q : ℚ) : ℚ :=
  (roundHalfEven (10 * q) : ℚ) / 10

/-- The daily briefing dict of `get_daily_briefing`
(calendar_audit.py lines 221-260).  Hours are exact rationals rounded to one
decimal; the percentage `int(strategic/total*100)` is `Nat` floor division
with the guarded `0` for `total_minutes = 0` as in the source. -/
structure Briefing where
  date : String
  total_meetings : Nat
  total_hours : ℚ
  strategic_hours : ℚ
  strategic_percentage : Nat
  meetings : List AuditResult
deriving DecidableEq

namespace CalendarAudit

/-- `get_daily_briefing`: audits the collection, filters to the target date,
sorts the day ascending by start time and computes the statistics.  The
caller (src/backend/main.py) supplies the parsed target date; the embedding
takes it as an explicit argument. -/
def get_daily_briefing (ms : List Meeting) (target_date : String) : Briefing :=
  let all_results := audit_calendar ms
  let day_results := all_results.filter (fun r => r.entry.date == target_date)
  let day_sorted := List.insertionSort startLE day_results
  let total_minutes : ℕ := (day_sorted.map (fun r => r.entry.duration_minutes)).sum
  let strategic_minutes : ℕ :=
    ((day_sorted.filter (fun r => r.strategic_value == "High")).map
      (fun r => r.entry.duration_minutes)).sum
  { date := target_date,
    total_meetings := day_sorted.length,
    total_hours := pyRound1 ((total_minutes : ℚ) / 60),
    strategic_hours := pyRound1 ((strategic_minutes : ℚ) / 60),
    strategic_percentage :=
      if total_minutes > 0 then (strategic_minutes * 100 / total_minutes : ℕ) else 0,
    meetings := day_sorted }

end CalendarAudit

/-! Auxiliary order on index-tagged audit results, used to state that the
audit sort is stable: ties on the score are broken by the original
position. -/

/-- Non-strict lexicographic order on `(original index, result)` pairs:
score first, index on ties. -/
def scoreIdxLE (p q : Nat × AuditResult) : Prop :=
  p.2.alignment_score < q.2.alignment_score ∨
    (p.2.alignment_score = q.2.alignment_score ∧ p.1 ≤ q.1)

instance : DecidableRel scoreIdxLE := fun p q => by
  unfold scoreIdxLE; infer_instance

instance : IsTotal (Nat × AuditResult) scoreIdxLE := by
  constructor
  intro a b
  unfold scoreIdxLE
  rcases Nat.lt_trichotomy a.2.alignment_score b.2.alignment_score with h | h | h
  · exact Or.inl (Or.inl h)
  · rcases Nat.le_total a.1 b.1 with h' | h'
    · exact Or.inl (Or.inr ⟨h, h'⟩)
    · exact Or.inr (Or.inr ⟨h.symm, h'⟩)
  · exact Or.inr (Or.inl h)

instance : IsTrans (Nat × AuditResult) scoreIdxLE := by
  constructor
  intro a b c hab hbc
  unfold scoreIdxLE at *
  rcases hab with h1 | ⟨h1, h1'⟩ <;> rcases hbc with h2 | ⟨h2, h2'⟩
  · exact Or.inl (Nat.lt_trans h1 h2)
  · exact Or.inl (h2 ▸ h1)
  · exact Or.inl (h1 ▸ h2)
  · exact Or.inr ⟨h1.trans h2, h1'.trans h2'⟩

/-- Strict lexicographic order on `(original index, result)` pairs: in a
stably sorted run of equal scores the original indices strictly increase. -/
def scoreIdxLT (p q : Nat × AuditResult) : Prop :=
  p.2.alignment_score < q.2.alignment_score ∨
    (p.2.alignment_score = q.2.alignment_score ∧ p.1 < q.1)

/-! ### Regex scanners for the style checker

The style checker uses a fixed handful of regular expressions.  Each is
embedded as a dedicated scanner over character lists; `re.search` becomes an
existence scan over all start positions, `re.findall` a left-to-right
non-overlapping counting scan. -/

/-- Is there a `\b` between the previous character and a word character? -/
def boundaryBefore : Option Char → Bool
  | none => true
  | some c => !isWordChar c

/-- Is there a `\b` between the last matched word character and what
follows? -/
def boundaryAfterL : List Char → Bool
  | [] => true
  | c :: _ => !isWordChar c

/-- Does `l` end with `pat`? -/
def endsWithL (pat l : List Char) : Bool :=
  startsWithL pat.reverse l.reverse

/-- Length of the maximal prefix satisfying `p`. -/
def countWhile (p : Char → Bool) (l : List Char) : Nat :=
  (l.takeWhile p).length

/-- `re.search` as an existence scan: try the matcher at every suffix,
tracking the preceding character for `\b` tests. -/
def scanExists (tryHere : Option Char → List Char → Bool) : Option Char → List Char → Bool
  | prev, [] => tryHere prev []
  | prev, c :: rest => tryHere prev (c :: rest) || scanExists tryHere (some c) rest

/-- `re.findall` as a counting scan: at each position try the matcher (which
returns the match length); on success continue after the match
(non-overlapping), otherwise advance one character.  The fuel is the list
length plus one, which always suffices. -/
def countMatches (tryHere : Option Char → List Char → Option Nat) :
    Nat → Option Char → List Char → Nat
  | 0, _, _ => 0
  | Nat.succ fuel, prev, cs =>
    match cs with
    | [] => 0
    | c :: rest =>
      match tryHere prev cs with
      | some n =>
        1 + countMatches tryHere fuel
              (match (cs.take n).getLast? with | some d => some d | none => prev)
              (cs.drop n)
      | none => countMatches tryHere fuel (some c) rest

/-- Matcher for `\b(lit1|lit2|...)\b` at the current position. -/
def tryLitBoth (lits : List String) (prev : Option Char) (cs : List Char) : Bool :=
  boundaryBefore prev &&
    lits.any (fun L => startsWithL L.toList cs && boundaryAfterL (cs.drop L.length))

/-- Matcher for `\b(was|were|been|being|is|are|am)\s+\w+ed\b`: an auxiliary
at a word boundary, at least one whitespace, then a maximal word run of
length at least three ending in "ed" (the trailing `\b` forces the `\w+` to
take the whole run).  Returns the match length. -/
def tryPassive1 (prev : Option Char) (cs : List Char) : Option Nat :=
  if !boundaryBefore prev then none
  else
    match ["was", "were", "been", "being", "is", "are", "am"].find?
        (fun a => startsWithL a.toList cs) with
    | none => none
    | some a =>
      let rest := cs.drop a.length
      let nws := countWhile isPySpace rest
      if nws = 0 then none
      else
        let run := (rest.drop nws).takeWhile isWordChar
        if run.length ≥ 3 && endsWithL (("ed").toList) run then
          some (a.length + nws + run.length)
        else none

/-- Matcher for `\b(has|have|had)\s+been\s+\w+ed\b`.  Returns the match
length. -/
def tryPassive2 (prev : Option Char) (cs : List Char) : Option Nat :=
  if !boundaryBefore prev then none
  else
    match ["has", "have", "had"].find? (fun a => startsWithL a.toList cs) with
    | none => none
    | some a =>
      let rest := cs.drop a.length
      let nws := countWhile isPySpace rest
      if nws = 0 then none
      else
        let rest2 := rest.drop nws
        if !startsWithL (("been").toList) rest2 then none
        else
          let rest3 := rest2.drop 4
          let nws2 := countWhile isPySpace rest3
          if nws2 = 0 then none
          else
            let run := (rest3.drop nws2).takeWhile isWordChar
            if run.length ≥ 3 && endsWithL (("ed").toList) run then
              some (a.length + nws + 4 + nws2 + run.length)
            else none

/-- Matcher for `\b(will|shall)\s+\w+\b`. -/
def tryWillShall (prev : Option Char) (cs : List Char) : Bool :=
  boundaryBefore prev &&
    (["will", "shall"].any fun L =>
      startsWithL L.toList cs &&
        (let rest := cs.drop L.length
         let nws := countWhile isPySpace rest
         decide (nws ≥ 1) &&
           (match rest.drop nws with
            | c :: _ => isWordChar c
            | [] => false)))

/-- Matcher for `\[@\w+\]`. -/
def tryMention : List Char → Bool
  | '[' :: '@' :: rest =>
    let run := rest.takeWhile isWordChar
    decide (run.length ≥ 1) &&
      (match rest.drop run.length with
       | ']' :: _ => true
       | _ => false)
  | _ => false

/-- Matcher for `\b(by|deadline|due)\s+\w+day\b`. -/
def tryDeadline (prev : Option Char) (cs : List Char) : Bool :=
  boundaryBefore prev &&
    (["by", "deadline", "due"].any fun L =>
      startsWithL L.toList cs &&
        (let rest := cs.drop L.length
         let nws := countWhile isPySpace rest
         decide (nws ≥ 1) &&
           (let run := (rest.drop nws).takeWhile isWordChar
            decide (run.length ≥ 4) && endsWithL (("day").toList) run)))

/-- Matcher for `\d+%`. -/
def tryNumPercent : List Char → Bool
  | [] => false
  | c :: rest =>
    c.isDigit &&
      (match (c :: rest).dropWhile Char.isDigit with
       | '%' :: _ => true
       | _ => false)

/-- Matcher for `\d+\s*(u1|u2|...)` where each `uN?` alternative reduces to
its mandatory prefix (the trailing `s?` is optional). -/
def tryNumUnit (lits : List String) : List Char → Bool
  | [] => false
  | c :: rest =>
    c.isDigit &&
      (let after := ((c :: rest).dropWhile Char.isDigit).dropWhile isPySpace
       lits.any fun L => startsWithL L.toList after)

/-- Matcher for `\$\d+`. -/
def tryDollarNum : List Char → Bool
  | '$' :: c :: _ => c.isDigit
  | _ => false

/-- Existence scan for matchers that do not look at the previous
character. -/
def scanExistsNP (tryHere : List Char → Bool) : List Char → Bool
  | [] => tryHere []
  | c :: rest => tryHere (c :: rest) || scanExistsNP tryHere rest

/-- Second half of `\bw\b.*\bw\b`: look for another bounded occurrence of
`w` without crossing a newline (`.` does not match `\n`). -/
def scanPairSecond (w : String) : Option Char → List Char → Bool
  | _, [] => false
  | prev, c :: rest =>
    tryLitBoth [w] prev (c :: rest) || (c != '\n' && scanPairSecond w (some c) rest)

/-- `re.search(r"\bw\b.*\bw\b", text)`: a bounded occurrence of `w`
followed, on the same line, by another bounded occurrence. -/
def scanPairFirst (w : String) : Option Char → List Char → Bool
  | _, [] => false
  | prev, c :: rest =>
    (tryLitBoth [w] prev (c :: rest) &&
      scanPairSecond w (some (w.toList.getLastD ('x'))) ((c :: rest).drop w.length)) ||
    scanPairFirst w (some c) rest

/-! ### Style Checker (src/backend/services/style_checker.py) -/

/-- One style issue, as the dicts built by the check functions. -/
structure StyleIssue where
  category : String
  issue : String
  suggestion : String
  severity : String
deriving DecidableEq

/-- The style check result dict. -/
structure StyleResult where
  score : ℤ
  issues : List StyleIssue
  summary : String
  improved_version : Option String
deriving DecidableEq

namespace StyleChecker

/-- `bluf_indicators` of `check_bluf_structure`. -/
def bluf_indicators : List String :=
  ["status:", "decision:", "ask:", "summary:", "tldr:", "tl;dr:",
   "recommendation:", "request:", "update:", "issue:", "action:"]

/-- `context_starters` of `check_bluf_structure`. -/
def context_starters : List String :=
  ["as you know", "i wanted to", "i\x27m writing to", "following up",
   "per our", "regarding", "in reference", "as discussed"]

/-- `check_bluf_structure`: flags a first line that starts with a context
preamble and contains no BLUF indicator. -/
def check_bluf_structure (text : String) : Option StyleIssue :=
  let first_line := pyLower (firstLineOf (pyStrip text))
  let has_bluf := bluf_indicators.any fun ind => pyIn ind first_line
  let starts_with_context := context_starters.any fun cst => pyStartsWith first_line cst
  if !has_bluf && starts_with_context then
    some { category := "Structure",
           issue := "Message doesn\x27t lead with the main point",
           suggestion := "Start with the conclusion, decision, or ask. Add context after.",
           severity := "high" }
  else none

/-- `len(re.findall(pattern1, text.lower()))`. -/
def passive_count1 (text : String) : Nat :=
  countMatches tryPassive1 ((pyLower text).toList.length + 1) none (pyLower text).toList

/-- `len(re.findall(pattern2, text.lower()))`. -/
def passive_count2 (text : String) : Nat :=
  countMatches tryPassive2 ((pyLower text).toList.length + 1) none (pyLower text).toList

/-- The passive-voice issue dict for a given match count. -/
def passive_issue (n : Nat) : StyleIssue :=
  { category := "Clarity",
    issue := s!"Excessive passive voice detected ({n} instances)",
    suggestion := "Use active voice to maintain accountability. E.g., \x27The team completed...\x27 instead of \x27It was completed...\x27",
    severity := "medium" }

/-- `check_passive_voice`: flags the first pattern whose match count exceeds
two (the loop breaks after the first hit). -/
def check_passive_voice (text : String) : List StyleIssue :=
  if passive_count1 text > 2 then [passive_issue (passive_count1 text)]
  else if passive_count2 text > 2 then [passive_issue (passive_count2 text)]
  else []

/-- `STYLE_RULES["vague_terms"]["terms"]`. -/
def vague_terms : List String :=
  ["significant", "substantial", "considerable", "notable",
   "good progress", "great progress", "some progress",
   "many", "several", "various", "a lot", "lots of",
   "soon", "shortly", "eventually", "later"]

/-- `check_vague_terms`. -/
def check_vague_terms (text : String) : List StyleIssue :=
  let found_terms := vague_terms.filter fun t => pyIn t (pyLower text)
  if found_terms ≠ [] then
    let shown := String.intercalate (", ") (found_terms.take 3)
    let ell := if found_terms.length > 3 then ("...") else ("")
    [{ category := "Specificity",
       issue := s!"Vague terms found: {shown}{ell}",
       suggestion := "Replace with specific numbers. E.g., \x27significant improvement\x27 \u00E2\u2020\u2019 \x2735% improvement\x27",
       severity := "medium" }]
  else []

/-- `has_action_items` over the four positive patterns of the backend
variant. -/
def has_action_items (text : String) : Bool :=
  let lowered := (pyLower text).toList
  scanExists (tryLitBoth ["next steps", "next step", "action items", "action item",
                          "todo", "to-do"]) none lowered ||
  scanExists tryWillShall none lowered ||
  scanExistsNP tryMention lowered ||
  scanExists tryDeadline none lowered

/-- `check_action_items`: for messages over fifty words with no action-item
indicator. -/
def check_action_items (text : String) : Option StyleIssue :=
  if pyWordCount text > 50 && !has_action_items text then
    some { category := "Actionability",
           issue := "No clear action items or next steps detected",
           suggestion := "Add a \x27Next Steps\x27 section with specific actions, owners, and deadlines",
           severity := "high" }
  else none

/-- `has_metrics`: the numeric patterns are searched on the original
(not lowercased) text. -/
def has_metrics (text : String) : Bool :=
  scanExistsNP tryNumPercent text.toList ||
  scanExistsNP (tryNumUnit ["hour", "day", "week", "month"]) text.toList ||
  scanExistsNP tryDollarNum text.toList ||
  scanExistsNP (tryNumUnit ["user", "customer", "request", "error"]) text.toList

/-- `status_indicators` of `check_metrics`. -/
def status_indicators : List String :=
  ["update", "progress", "status", "report", "weekly"]

/-- `check_metrics` (present only in the backend variant): a status-like
message with no quantified metric. -/
def check_metrics (text : String) : Option StyleIssue :=
  let is_status_message := status_indicators.any fun ind => pyIn ind (pyLower text)
  if is_status_message && !has_metrics text then
    some { category := "Data",
           issue := "Status update lacks quantified metrics",
           suggestion := "Include specific numbers: completion %, time spent, items remaining, etc.",
           severity := "medium" }
  else none

/-- `STYLE_RULES["pet_peeves"]["terms"]`. -/
def pet_peeves : List String :=
  ["sorry to bother", "quick sync", "just checking in", "touching base",
   "circle back", "ping you", "loop you in"]

/-- `check_pet_peeves`: one low-severity issue per matched term, in list
order. -/
def check_pet_peeves (text : String) : List StyleIssue :=
  (pet_peeves.filter fun t => pyIn t (pyLower text)).map fun t =>
    { category := "Tone",
      issue := s!"Pet peeve phrase detected: \x27{t}\x27",
      suggestion := "Be direct. Instead of \x27quick sync\x27, state the specific topic and ask.",
      severity := "low" }

/-- `check_over_apologizing`: the three patterns in order, first match wins
(the loop breaks). -/
def check_over_apologizing (text : String) : List StyleIssue :=
  let lowered := (pyLower text).toList
  if scanPairFirst ("sorry") none lowered ||
     scanPairFirst ("apologize") none lowered ||
     (startsWithL (("sorry").toList) lowered && boundaryAfterL (lowered.drop 5)) then
    [{ category := "Tone",
       issue := "Over-apologizing detected",
       suggestion := "Reduce apologies. If something needs addressing, state it directly and move to the solution.",
       severity := "low" }]
  else []

/-- The per-issue deduction of `calculate_style_score`. -/
def severity_deduction (i : StyleIssue) : ℤ :=
  if i.severity == "high" then 20
  else if i.severity == "medium" then 10
  else 5

/-- `calculate_style_score`: start at 100, subtract per issue, clamp at
zero. -/
def calculate_style_score (issues : List StyleIssue) : ℤ :=
  max 0 (issues.foldl (fun s i => s - severity_deduction i) 100)

/-- `generate_summary`. -/
def generate_summary (score : ℤ) : String :=
  if score ≥ 85 then "Excellent! Your message follows the communication style guidelines well."
  else if score ≥ 70 then "Good structure, but consider the suggestions above for improvement."
  else if score ≥ 50 then "Several areas need attention. Review the issues and apply the suggestions."
  else "This message needs significant revision to align with communication guidelines."

/-- `check_communication_style`: the full backend pipeline, checks in fixed
order. -/
def check_communication_style (text : String) : StyleResult :=
  let issues :=
    (check_bluf_structure text).toList ++
    check_passive_voice text ++
    check_vague_terms text ++
    (check_action_items text).toList ++
    (check_metrics text).toList ++
    check_pet_peeves text ++
    check_over_apologizing text
  let score := calculate_style_score issues
  { score := score,
    issues := issues,
    summary := generate_summary score,
    improved_version := none }

end StyleChecker

/-- The rejection of blank input by the style endpoints
(`HTTPException(400, "Text cannot be empty")` in src/backend/main.py,
the 400 response in src/api/check-style.py). -/
inductive StyleError
  | invalidInput
deriving DecidableEq

/-- `check_style` of src/backend/main.py: rejects empty or whitespace-only
text, otherwise returns the checker's result. -/
def check_style (text : String) : Except StyleError StyleResult :=
  if pyStrip text = "" then Except.error StyleError.invalidInput
  else Except.ok (StyleChecker.check_communication_style text)

namespace StyleAPI

/-! Embedding of src/api/check-style.py: the duplicate pipeline with no
metrics check, only the first two action patterns, and slightly different
suggestion texts. -/

/-- `check_bluf_structure` (identical to the backend copy). -/
def check_bluf_structure (text : String) : Option StyleIssue :=
  StyleChecker.check_bluf_structure text

/-- The passive-voice issue dict of the api copy (shorter suggestion). -/
def passive_issue (n : Nat) : StyleIssue :=
  { category := "Clarity",
    issue := s!"Excessive passive voice detected ({n} instances)",
    suggestion := "Use active voice. E.g., \x27The team completed...\x27 instead of \x27It was completed...\x27",
    severity := "medium" }

/-- `check_passive_voice` (api copy; same patterns and threshold). -/
def check_passive_voice (text : String) : List StyleIssue :=
  if StyleChecker.passive_count1 text > 2 then [passive_issue (StyleChecker.passive_count1 text)]
  else if StyleChecker.passive_count2 text > 2 then [passive_issue (StyleChecker.passive_count2 text)]
  else []

/-- `check_vague_terms` (api copy; proper arrow in the suggestion). -/
def check_vague_terms (text : String) : List StyleIssue :=
  let found_terms := StyleChecker.vague_terms.filter fun t => pyIn t (pyLower text)
  if found_terms ≠ [] then
    let shown := String.intercalate (", ") (found_terms.take 3)
    let ell := if found_terms.length > 3 then ("...") else ("")
    [{ category := "Specificity",
       issue := s!"Vague terms found: {shown}{ell}",
       suggestion := "Replace with specific numbers. E.g., \x27significant improvement\x27 \u2192 \x2735% improvement\x27",
       severity := "medium" }]
  else []

/-- `has_action_items` of the api copy: only the first two patterns. -/
def has_action_items (text : String) : Bool :=
  let lowered := (pyLower text).toList
  scanExists (tryLitBoth ["next steps", "next step", "action items", "action item",
                          "todo", "to-do"]) none lowered ||
  scanExists tryWillShall none lowered

/-- `check_action_items` (api copy). -/
def check_action_items (text : String) : Option StyleIssue :=
  if pyWordCount text > 50 && !has_action_items text then
    some { category := "Actionability",
           issue := "No clear action items or next steps detected",
           suggestion := "Add a \x27Next Steps\x27 section with specific actions, owners, and deadlines",
           severity := "high" }
  else none

/-- `check_pet_peeves` (api copy; shorter suggestion). -/
def check_pet_peeves (text : String) : List StyleIssue :=
  (StyleChecker.pet_peeves.filter fun t => pyIn t (pyLower text)).map fun t =>
    { category := "Tone",
      issue := s!"Pet peeve phrase detected: \x27{t}\x27",
      suggestion := "Be direct. State the specific topic and ask.",
      severity := "low" }

/-- `check_over_apologizing` (api copy; shorter suggestion). -/
def check_over_apologizing (text : String) : List StyleIssue :=
  let lowered := (pyLower text).toList
  if scanPairFirst ("sorry") none lowered ||
     scanPairFirst ("apologize") none lowered ||
     (startsWithL (("sorry").toList) lowered && boundaryAfterL (lowered.drop 5)) then
    [{ category := "Tone",
       issue := "Over-apologizing detected",
       suggestion := "Reduce apologies. State issues directly and move to the solution.",
       severity := "low" }]
  else []

/-- The issue pipeline of `handler.do_POST` in src/api/check-style.py (no
metrics check). -/
def collect_issues (text : String) : List StyleIssue :=
  (check_bluf_structure text).toList ++
  check_passive_voice text ++
  check_vague_terms text ++
  (check_action_items text).toList ++
  check_pet_peeves text ++
  check_over_apologizing text

/-- The api response body: same score and summary rules as the backend. -/
def check_result (text : String) : StyleResult :=
  let issues := collect_issues text
  let score := StyleChecker.calculate_style_score issues
  { score := score,
    issues := issues,
    summary := StyleChecker.generate_summary score,
    improved_version := none }

/-- The `do_POST` handling of src/api/check-style.py: a 400 rejection for
blank text, otherwise the computed result. -/
def handle_check_style (text : String) : Except StyleError StyleResult :=
  if pyStrip text = "" then Except.error StyleError.invalidInput
  else Except.ok (check_result text)

end StyleAPI

/-! ### Specification devices and concrete inputs used by the claims -/

/-- Favourability rank of a recommendation: Decline < Delegate < Keep. -/
def recRank (r : String) : Nat :=
  if r = "Keep" then 2 else if r = "Delegate" then 1 else 0

/-- Favourability rank of a strategic-value label: Low < Medium < High. -/
def svRank (v : String) : Nat :=
  if v = "High" then 2 else if v = "Medium" then 1 else 0

/-- The status-update meeting of the spec's worked example (§8). -/
def meetingC5 : Meeting :=
  { id := 1, title := "Weekly status", date := "2025-01-06", start_time := 540,
    end_time := 570, duration_minutes := 30, organizer := "a@b.c", attendees := [],
    meeting_type := "status_update", description := "", recurring := true }

/-- A vendor-demo meeting whose text contains "100k" (and neither "25k" nor
"10k"): the input on which the two api copies of the scorer disagree. -/
def meetingC1 : Meeting :=
  { id := 2, title := "Vendor demo", date := "2025-01-06", start_time := 600,
    end_time := 660, duration_minutes := 60, organizer := "a@b.c", attendees := [],
    meeting_type := "vendor_demo", description := "Contract worth 100k annually",
    recurring := false }

/-- The example text of spec §8 for the style checker. -/
def textC9 : String :=
  "I wanted to update you on the project. It was completed. It was reviewed. It was approved."

/-- A meeting whose searchable text contains "aim" (hence the substring
"ai") and no other OKR keyword. -/
def meetingAim : Meeting :=
  { id := 3, title := "Taking aim", date := "2025-01-07", start_time := 720,
    end_time := 780, duration_minutes := 60, organizer := "a@b.c", attendees := [],
    meeting_type := "offsite", description := "", recurring := false }

/-- Two meetings agreeing on title, description, meeting type and attendees
but differing in every other field (for the noninterference witness). -/
def meetingNI1 : Meeting :=
  { id := 10, title := "Platform review", date := "2025-02-01", start_time := 540,
    end_time := 600, duration_minutes := 60, organizer := "x@y.z",
    attendees := ["alice@y.z"], meeting_type := "architecture",
    description := "Quarterly platform review", recurring := false }

/-- See `meetingNI1`. -/
def meetingNI2 : Meeting :=
  { id := 99, title := "Platform review", date := "2031-12-31", start_time := 1,
    end_time := 2, duration_minutes := 9999, organizer := "other@y.z",
    attendees := ["alice@y.z"], meeting_type := "architecture",
    description := "Quarterly platform review", recurring := true }

section ScoringSanity

set_option maxRecDepth 40000

example : CalendarAudit.MEETING_TYPE_SCORES_get ("status_update") = 20 := by decide

example : CalendarAudit.type_score meetingC5 = 15 := by decide
example : CalendarAudit.okr_score meetingC5 = 30 := by decide
example : CalendarAudit.attendee_score meetingC5 = 60 := by decide
example : CalendarAudit.time_score meetingC5 = 30 := by decide
example : CalendarAudit.calculate_alignment_score meetingC5 =
    (31, ["No clear OKR alignment detected",
          "Status updates should be asynchronous - consider declining"], "Decline") := by
  decide

example : AuditAPI.calculate_alignment_score meetingC1 =
    (51, ["No clear OKR alignment detected"], "Delegate", []) := by decide
example : BriefingAPI.calculate_alignment_score meetingC1 =
    (42, ["No clear OKR alignment detected"], "Decline", []) := by decide

example : StyleChecker.passive_count1 textC9 = 3 := by decide
example : (StyleChecker.check_bluf_structure textC9).isSome = true := by decide
example : StyleChecker.check_metrics textC9 =
    some { category := "Data",
           issue := "Status update lacks quantified metrics",
           suggestion := "Include specific numbers: completion %, time spent, items remaining, etc.",
           severity := "medium" } := by decide
example : (StyleChecker.check_communication_style textC9).score = 60 := by decide
example : (StyleAPI.check_result textC9).score = 70 := by decide
example : (StyleAPI.check_result textC9).summary =
    "Good structure, but consider the suggestions above for improvement." := by decide
example : pyWordCount textC9 = 17 := by decide

end ScoringSanity

/-! ### Bounds on the sub-scores -/

theorem lookup_getD_le (d b : Nat) (mt : String) :
    ∀ l : List (String × Nat), (∀ p ∈ l, p.2 ≤ b) → d ≤ b →
      ((List.lookup mt l).getD d) ≤ b
  | [], _, hd => hd
  | (k, v) :: t, h, hd => by
    rw [List.lookup]
    cases hk : mt == k with
    | false =>
      exact lookup_getD_le d b mt t (fun p hp => h p (List.mem_cons_of_mem _ hp)) hd
    | true =>
      exact h (k, v) (List.mem_cons_self _ _)

theorem MEETING_TYPE_SCORES_get_le (mt : String) :
    CalendarAudit.MEETING_TYPE_SCORES_get mt ≤ 95 := by
  unfold CalendarAudit.MEETING_TYPE_SCORES_get
  exact lookup_getD_le 40 95 mt CalendarAudit.MEETING_TYPE_SCORES (by decide) (by decide)

theorem type_score_le (m : Meeting) : CalendarAudit.type_score m ≤ 95 := by
  unfold CalendarAudit.type_score
  split_ifs <;> first | decide | exact MEETING_TYPE_SCORES_get_le m.meeting_type

theorem briefing_type_score_le (m : Meeting) : BriefingAPI.type_score m ≤ 95 := by
  unfold BriefingAPI.type_score
  split_ifs <;> first | decide | exact MEETING_TYPE_SCORES_get_le m.meeting_type

theorem okr_score_le (m : Meeting) : CalendarAudit.okr_score m ≤ 100 := by
  unfold CalendarAudit.okr_score
  split_ifs
  · exact Nat.min_le_left _ _
  · decide

theorem attendee_score_le (m : Meeting) : CalendarAudit.attendee_score m ≤ 90 := by
  unfold CalendarAudit.attendee_score
  split_ifs <;> decide

theorem time_score_le (m : Meeting) : CalendarAudit.time_score m ≤ 100 := by
  unfold CalendarAudit.time_score
  split_ifs <;> decide

theorem final_score_le (m : Meeting) : CalendarAudit.final_score m ≤ 100 := by
  unfold CalendarAudit.final_score
  have h : 30 * CalendarAudit.type_score m + 35 * CalendarAudit.okr_score m +
      20 * CalendarAudit.attendee_score m + 15 * CalendarAudit.time_score m ≤ 9650 := by
    have h1 := type_score_le m
    have h2 := okr_score_le m
    have h3 := attendee_score_le m
    have h4 := time_score_le m
    omega
  calc _ ≤ 9650 / 100 := Nat.div_le_div_right h
    _ ≤ 100 := by decide

theorem briefing_final_score_le (m : Meeting) : BriefingAPI.final_score m ≤ 100 := by
  unfold BriefingAPI.final_score
  have h : 30 * BriefingAPI.type_score m + 35 * CalendarAudit.okr_score m +
      20 * CalendarAudit.attendee_score m + 15 * CalendarAudit.time_score m ≤ 9650 := by
    have h1 := briefing_type_score_le m
    have h2 := okr_score_le m
    have h3 := attendee_score_le m
    have h4 := time_score_le m
    omega
  calc _ ≤ 9650 / 100 := Nat.div_le_div_right h
    _ ≤ 100 := by decide

/-- C2: for every Meeting Record the final score of
`calculate_alignment_score` (all three copies) lies in [0, 100], with no
explicit clamp: the floor of the weighted sum of the bounded sub-scores
cannot leave the range. -/
theorem claim_C2_score_in_range (m : Meeting) :
    0 ≤ (CalendarAudit.calculate_alignment_score m).1 ∧
    (CalendarAudit.calculate_alignment_score m).1 ≤ 100 ∧
    (AuditAPI.calculate_alignment_score m).1 ≤ 100 ∧
    (BriefingAPI.calculate_alignment_score m).1 ≤ 100 :=
  ⟨Nat.zero_le _, final_score_le m, final_score_le m, briefing_final_score_le m⟩

theorem recRank_recommendation (s : Nat) :
    recRank (CalendarAudit.recommendation_of_score s) =
      if 70 ≤ s then 2 else if 45 ≤ s then 1 else 0 := by
  unfold CalendarAudit.recommendation_of_score recRank
  split_ifs <;> simp_all

theorem svRank_label (s : Nat) :
    svRank (CalendarAudit.get_strategic_value_label s) =
      if 75 ≤ s then 2 else if 50 ≤ s then 1 else 0 := by
  unfold CalendarAudit.get_strategic_value_label svRank
  split_ifs <;> simp_all

/-- C3: `recommendation` and `strategic_value` are non-decreasing step
functions of the score with the exact boundary behaviour at
44/45, 69/70, 49/50, 74/75. -/
theorem claim_C3_step_functions (s t : Nat) (h : s ≤ t) :
    CalendarAudit.recommendation_of_score 44 = "Decline" ∧
    CalendarAudit.recommendation_of_score 45 = "Delegate" ∧
    CalendarAudit.recommendation_of_score 69 = "Delegate" ∧
    CalendarAudit.recommendation_of_score 70 = "Keep" ∧
    CalendarAudit.get_strategic_value_label 49 = "Low" ∧
    CalendarAudit.get_strategic_value_label 50 = "Medium" ∧
    CalendarAudit.get_strategic_value_label 74 = "Medium" ∧
    CalendarAudit.get_strategic_value_label 75 = "High" ∧
    recRank (CalendarAudit.recommendation_of_score s) ≤
      recRank (CalendarAudit.recommendation_of_score t) ∧
    svRank (CalendarAudit.get_strategic_value_label s) ≤
      svRank (CalendarAudit.get_strategic_value_label t) := by
  refine ⟨by decide, by decide, by decide, by decide, by decide, by decide, by decide,
    by decide, ?_, ?_⟩
  · rw [recRank_recommendation, recRank_recommendation]
    split_ifs <;> omega
  · rw [svRank_label, svRank_label]
    split_ifs <;> omega

theorem claim_C3_step_functions_witness :
    recRank (CalendarAudit.recommendation_of_score 31) ≤
      recRank (CalendarAudit.recommendation_of_score 96) ∧
    svRank (CalendarAudit.get_strategic_value_label 31) ≤
      svRank (CalendarAudit.get_strategic_value_label 96) :=
  ⟨(claim_C3_step_functions 31 96 (by decide)).2.2.2.2.2.2.2.2.1,
   (claim_C3_step_functions 31 96 (by decide)).2.2.2.2.2.2.2.2.2⟩

/-- C5: the spec's worked example: a status-update meeting with empty
description and no attendees gets type score forced to 15, the async flag,
OKR score 30, attendee score 60, time score 30, final score 31 and
recommendation "Decline". -/
theorem claim_C5_status_update_example :
    CalendarAudit.type_score meetingC5 = 15 ∧
    CalendarAudit.okr_score meetingC5 = 30 ∧
    CalendarAudit.attendee_score meetingC5 = 60 ∧
    CalendarAudit.time_score meetingC5 = 30 ∧
    "Status updates should be asynchronous - consider declining" ∈
      CalendarAudit.flags meetingC5 ∧
    CalendarAudit.calculate_alignment_score meetingC5 =
      (31, ["No clear OKR alignment detected",
            "Status updates should be asynchronous - consider declining"], "Decline") := by
  set_option maxRecDepth 40000 in decide

/-- C6: `find_okr_relevance` searches the lowercased
title-description-type string; each of the three fixed groups contributes
its label iff some keyword is a plain substring; the result keeps the fixed
group order; and plain substring matching makes a meeting containing only
"aim" match the "ai" keyword. -/
theorem claim_C6_okr_matcher (m : Meeting) :
    (CalendarAudit.find_okr_relevance m).Sublist
      ["Platform Modernization", "Build World-Class Engineering Team", "AI/ML Integration"] ∧
    ("Platform Modernization" ∈ CalendarAudit.find_okr_relevance m ↔
      CalendarAudit.OKR_KEYWORDS_platform.any
        (fun kw => pyIn kw (CalendarAudit.text_to_search m)) = true) ∧
    ("Build World-Class Engineering Team" ∈ CalendarAudit.find_okr_relevance m ↔
      CalendarAudit.OKR_KEYWORDS_engineering.any
        (fun kw => pyIn kw (CalendarAudit.text_to_search m)) = true) ∧
    ("AI/ML Integration" ∈ CalendarAudit.find_okr_relevance m ↔
      CalendarAudit.OKR_KEYWORDS_ai.any
        (fun kw => pyIn kw (CalendarAudit.text_to_search m)) = true) ∧
    CalendarAudit.text_to_search m =
      pyLower (m.title ++ " " ++ m.description ++ " " ++ m.meeting_type) ∧
    CalendarAudit.find_okr_relevance meetingAim = ["AI/ML Integration"] := by
  refine ⟨?_, ?_, ?_, ?_, rfl, by set_option maxRecDepth 40000 in decide⟩ <;>
    unfold CalendarAudit.find_okr_relevance <;>
    split_ifs <;> simp_all

/-- C10: the scorer reads only title, description, meeting type and
attendees: two Meeting Records agreeing on those four fields get identical
results, whatever their id, date, times, duration, organizer and recurring
flag. -/
theorem claim_C10_noninterference (m1 m2 : Meeting)
    (ht : m1.title = m2.title) (hd : m1.description = m2.description)
    (hmt : m1.meeting_type = m2.meeting_type) (ha : m1.attendees = m2.attendees) :
    CalendarAudit.calculate_alignment_score m1 = CalendarAudit.calculate_alignment_score m2 ∧
    AuditAPI.calculate_alignment_score m1 = AuditAPI.calculate_alignment_score m2 ∧
    CalendarAudit.find_okr_relevance m1 = CalendarAudit.find_okr_relevance m2 := by
  refine ⟨?_, ?_, ?_⟩ <;>
    simp only [CalendarAudit.calculate_alignment_score, AuditAPI.calculate_alignment_score,
      CalendarAudit.final_score, CalendarAudit.type_score, CalendarAudit.okr_score,
      CalendarAudit.attendee_score, CalendarAudit.time_score, CalendarAudit.flags,
      CalendarAudit.recommendation_of_score, CalendarAudit.is_junior_activity,
      CalendarAudit.is_senior_activity, CalendarAudit.find_okr_relevance,
      CalendarAudit.text_to_search, CalendarAudit.text_lower,
      CalendarAudit.attendees_lower] <;>
    simp only [ht, hd, hmt, ha]

theorem claim_C10_noninterference_witness :
    CalendarAudit.calculate_alignment_score meetingNI1 =
      CalendarAudit.calculate_alignment_score meetingNI2 ∧
    AuditAPI.calculate_alignment_score meetingNI1 =
      AuditAPI.calculate_alignment_score meetingNI2 ∧
    CalendarAudit.find_okr_relevance meetingNI1 =
      CalendarAudit.find_okr_relevance meetingNI2 :=
  claim_C10_noninterference meetingNI1 meetingNI2 rfl rfl rfl rfl

/-- C1: the two api copies of `calculate_alignment_score` do NOT agree on
every Meeting Record: on a vendor demo whose text contains "100k" the
calendar-audit copy applies the 200k/100k override (type score 70, final
51, "Delegate") while the daily-briefing copy, which lacks that branch,
stays at base type score 40 (final 42, "Decline"). -/
theorem claim_C1_pipeline_divergence :
    pyIn ("100k") (CalendarAudit.text_lower meetingC1) = true ∧
    pyIn ("25k") (CalendarAudit.text_lower meetingC1) = false ∧
    pyIn ("10k") (CalendarAudit.text_lower meetingC1) = false ∧
    AuditAPI.calculate_alignment_score meetingC1 =
      (51, ["No clear OKR alignment detected"], "Delegate", []) ∧
    BriefingAPI.calculate_alignment_score meetingC1 =
      (42, ["No clear OKR alignment detected"], "Decline", []) ∧
    AuditAPI.calculate_alignment_score meetingC1 ≠
      BriefingAPI.calculate_alignment_score meetingC1 := by
  set_option maxRecDepth 40000 in decide

/-- C9 fails as stated: on the spec's example text the backend
`check_communication_style` emits three issues, not two, because the
metrics check also fires ("update" makes it status-like and there is no
digit), so the score is 60, not 70. -/
theorem claim_C9_counterexample :
    (StyleChecker.check_communication_style textC9).score = 60 ∧
    (StyleChecker.check_communication_style textC9).score ≠ 70 ∧
    (StyleChecker.check_communication_style textC9).issues.length = 3 := by
  set_option maxRecDepth 100000 in decide

/-- C9 (amended): on the example text the api copy (which has no metrics
check) emits exactly the BLUF issue and the passive-voice issue (three
matches of the first passive pattern) for score 70 and the "Good structure"
summary; the backend copy additionally emits the metrics issue, for score
60 and the "Several areas need attention" summary. -/
theorem claim_C9_amended :
    StyleChecker.passive_count1 textC9 = 3 ∧
    StyleAPI.check_result textC9 =
      { score := 70,
        issues := [{ category := "Structure",
                     issue := "Message doesn\x27t lead with the main point",
                     suggestion := "Start with the conclusion, decision, or ask. Add context after.",
                     severity := "high" },
                   { category := "Clarity",
                     issue := "Excessive passive voice detected (3 instances)",
                     suggestion := "Use active voice. E.g., \x27The team completed...\x27 instead of \x27It was completed...\x27",
                     severity := "medium" }],
        summary := "Good structure, but consider the suggestions above for improvement.",
        improved_version := none } ∧
    StyleChecker.check_communication_style textC9 =
      { score := 60,
        issues := [{ category := "Structure",
                     issue := "Message doesn\x27t lead with the main point",
                     suggestion := "Start with the conclusion, decision, or ask. Add context after.",
                     severity := "high" },
                   { category := "Clarity",
                     issue := "Excessive passive voice detected (3 instances)",
                     suggestion := "Use active voice to maintain accountability. E.g., \x27The team completed...\x27 instead of \x27It was completed...\x27",
                     severity := "medium" },
                   { category := "Data",
                     issue := "Status update lacks quantified metrics",
                     suggestion := "Include specific numbers: completion %, time spent, items remaining, etc.",
                     severity := "medium" }],
        summary := "Several areas need attention. Review the issues and apply the suggestions.",
        improved_version := none } := by
  set_option maxRecDepth 100000 in decide

/-- C8: both style endpoints reject empty or whitespace-only text with the
invalid-input error and compute no result; on any other text they return
the checker's result. -/
theorem claim_C8_blank_rejection (text : String) :
    (pyStrip text = "" →
      check_style text = Except.error StyleError.invalidInput ∧
      StyleAPI.handle_check_style text = Except.error StyleError.invalidInput) ∧
    (pyStrip text ≠ "" →
      check_style text = Except.ok (StyleChecker.check_communication_style text) ∧
      StyleAPI.handle_check_style text = Except.ok (StyleAPI.check_result text)) := by
  constructor <;> intro h <;>
    simp [check_style, StyleAPI.handle_check_style, h]

theorem claim_C8_blank_rejection_witness :
    check_style (" \t  ") = Except.error StyleError.invalidInput ∧
    StyleAPI.handle_check_style ("Status: done") =
      Except.ok (StyleAPI.check_result ("Status: done")) :=
  ⟨((claim_C8_blank_rejection (" \t  ")).1 (by decide)).1,
   ((claim_C8_blank_rejection ("Status: done")).2 (by decide)).2⟩

/-! ### The audit pipeline theorems -/

theorem entry_mem_of_mem_audit_calendar {r : AuditResult} {ms : List Meeting}
    (hr : r ∈ CalendarAudit.audit_calendar ms) : r.entry ∈ ms := by
  unfold CalendarAudit.audit_calendar at hr
  rw [List.mem_insertionSort] at hr
  rcases List.mem_map.mp hr with ⟨m, hm, rfl⟩
  exact hm

/-- C7: a daily briefing for a date matching no meeting has zero counts,
zero hours and zero percentage (no division by zero), and the audit summary
of an empty collection has health score zero. -/
theorem claim_C7_empty_day (ms : List Meeting) (target : String)
    (h : ∀ m ∈ ms, m.date ≠ target) :
    CalendarAudit.get_daily_briefing ms target =
      { date := target, total_meetings := 0, total_hours := 0, strategic_hours := 0,
        strategic_percentage := 0, meetings := [] } ∧
    CalendarAudit.audit_summary (CalendarAudit.audit_calendar []) =
      { total_meetings := 0, high_strategic_value := 0, needs_attention := 0,
        health_score := 0 } := by
  have hfilter : (CalendarAudit.audit_calendar ms).filter
      (fun r => r.entry.date == target) = [] := by
    rw [List.filter_eq_nil_iff]
    intro r hr
    have hne := h r.entry (entry_mem_of_mem_audit_calendar hr)
    simp [hne]
  constructor
  · unfold CalendarAudit.get_daily_briefing
    simp only [hfilter, List.insertionSort, List.map_nil, List.filter_nil, List.sum_nil,
      List.length_nil]
    norm_num [pyRound1, roundHalfEven]
  · decide

theorem claim_C7_empty_day_witness :
    CalendarAudit.get_daily_briefing [meetingC5] ("1999-12-31") =
      { date := "1999-12-31", total_meetings := 0, total_hours := 0, strategic_hours := 0,
        strategic_percentage := 0, meetings := [] } ∧
    CalendarAudit.audit_summary (CalendarAudit.audit_calendar []) =
      { total_meetings := 0, high_strategic_value := 0, needs_attention := 0,
        health_score := 0 } :=
  claim_C7_empty_day [meetingC5] ("1999-12-31") (by decide)

theorem le_fst_of_mem_enumFrom {α : Type} {q : Nat × α} :
    ∀ {n : Nat} {l : List α}, q ∈ List.enumFrom n l → n ≤ q.1 := by
  intro n l
  induction l generalizing n with
  | nil => intro h; simp [List.enumFrom] at h
  | cons x t ih =>
    intro h
    rw [List.enumFrom] at h
    rcases List.mem_cons.mp h with rfl | h'
    · exact Nat.le_refl _
    · exact Nat.le_of_succ_le (ih h')

theorem pairwise_fst_lt_enumFrom {α : Type} : ∀ (n : Nat) (l : List α),
    (List.enumFrom n l).Pairwise (fun p q => p.1 < q.1)
  | _, [] => by simp [List.enumFrom]
  | n, x :: t => by
    rw [List.enumFrom]
    refine List.Pairwise.cons ?_ (pairwise_fst_lt_enumFrom (n + 1) t)
    intro q hq
    exact Nat.lt_of_lt_of_le (Nat.lt_succ_self n) (le_fst_of_mem_enumFrom hq)

theorem orderedInsert_map_snd (p : Nat × AuditResult) :
    ∀ (l : List (Nat × AuditResult)), (∀ q ∈ l, p.1 < q.1) →
      (l.orderedInsert scoreIdxLE p).map Prod.snd =
        (l.map Prod.snd).orderedInsert CalendarAudit.scoreLE p.2
  | [], _ => rfl
  | q :: t, hall => by
    have hq : p.1 < q.1 := hall q (List.mem_cons_self _ _)
    have hiff : scoreIdxLE p q ↔ CalendarAudit.scoreLE p.2 q.2 := by
      unfold scoreIdxLE CalendarAudit.scoreLE
      constructor
      · rintro (hlt | ⟨heq, _⟩)
        · exact Nat.le_of_lt hlt
        · exact Nat.le_of_eq heq
      · intro hle
        rcases Nat.lt_or_ge p.2.alignment_score q.2.alignment_score with hlt | hge
        · exact Or.inl hlt
        · exact Or.inr ⟨Nat.le_antisymm hle hge, Nat.le_of_lt hq⟩
    simp only [List.orderedInsert, List.map_cons]
    by_cases hc : CalendarAudit.scoreLE p.2 q.2
    · rw [if_pos (hiff.mpr hc), if_pos hc, List.map_cons, List.map_cons]
    · rw [if_neg (fun hh => hc (hiff.mp hh)), if_neg hc, List.map_cons,
        orderedInsert_map_snd p t (fun q' hq' => hall q' (List.mem_cons_of_mem _ hq'))]

theorem insertionSort_enumFrom_map_snd :
    ∀ (n : Nat) (l : List AuditResult),
      ((List.enumFrom n l).insertionSort scoreIdxLE).map Prod.snd =
        l.insertionSort CalendarAudit.scoreLE
  | _, [] => rfl
  | n, x :: t => by
    rw [List.enumFrom, List.insertionSort, List.insertionSort]
    rw [orderedInsert_map_snd _ _ ?hall, insertionSort_enumFrom_map_snd (n + 1) t]
    case hall =>
      intro q hq
      have hq' : q ∈ List.enumFrom (n + 1) t := (List.mem_insertionSort scoreIdxLE).mp hq
      exact Nat.lt_of_succ_le (le_fst_of_mem_enumFrom hq')

theorem pairwise_scoreIdxLT_sorted (l : List AuditResult) :
    ((l.enum).insertionSort scoreIdxLE).Pairwise scoreIdxLT := by
  have hs : List.Sorted scoreIdxLE ((l.enum).insertionSort scoreIdxLE) :=
    List.sorted_insertionSort _ _
  have hperm : List.Perm ((l.enum).insertionSort scoreIdxLE) (l.enum) :=
    List.perm_insertionSort _ _
  have hne : ((l.enum).insertionSort scoreIdxLE).Pairwise (fun p q => p.1 ≠ q.1) := by
    refine (hperm.pairwise_iff (fun hxy => Ne.symm hxy)).mpr ?_
    have henum : (l.enum).Pairwise (fun p q : Nat × AuditResult => p.1 < q.1) :=
      pairwise_fst_lt_enumFrom 0 l
    exact henum.imp (fun hlt => Nat.ne_of_lt hlt)
  refine (List.Pairwise.and hs hne).imp ?_
  rintro a b ⟨hle | ⟨heq, hile⟩, hne'⟩
  · exact Or.inl hle
  · exact Or.inr ⟨heq, Nat.lt_of_le_of_ne hile hne'⟩

/-- C4: `audit_calendar` returns a permutation of the per-meeting results,
sorted ascending by alignment score, and the sort is stable: the output is
the projection of the index-tagged results sorted by the
score-then-original-index order, in which equal scores keep strictly
increasing original positions. -/
theorem claim_C4_stable_sort (ms : List Meeting) :
    List.Perm (CalendarAudit.audit_calendar ms) (ms.map CalendarAudit.audit_result) ∧
    List.Sorted CalendarAudit.scoreLE (CalendarAudit.audit_calendar ms) ∧
    CalendarAudit.audit_calendar ms =
      (((ms.map CalendarAudit.audit_result).enum).insertionSort scoreIdxLE).map Prod.snd ∧
    (((ms.map CalendarAudit.audit_result).enum).insertionSort scoreIdxLE).Pairwise
      scoreIdxLT := by
  refine ⟨List.perm_insertionSort _ _, List.sorted_insertionSort _ _, ?_,
    pairwise_scoreIdxLT_sorted _⟩
  unfold CalendarAudit.audit_calendar
  exact (insertionSort_enumFrom_map_snd 0 _).symm
